import Mathlib

/-!
Shallow embedding of `styled_str/styled.py` (class `Styled`, a subclass of
`str` carrying ANSI escape-sequence styling) and proofs about it.

Modelling conventions:
* A Python string value is a `PyStr`: either a plain `str`, or a `Styled`
  instance, which carries its `data` attribute (itself a `PyStr`, because
  `Styled` subclasses `str` and `__init__` stores a `Styled` argument as-is),
  its `_codes` list, and the identity (`cid`) of the Python list object bound
  to `_codes`.  List identities let us speak about aliasing of `_codes`
  between an original and a derived value; fresh identities are supplied by a
  `nid` parameter standing for the allocator.
* Python exceptions are values of `PyErr`; fallible operations return
  `Except PyErr`.
* `pyStrip`/`pyLower`/`pyUpperStr` and Lean's character order stand in for
  the corresponding Python `str` operations; on the ASCII inputs appearing
  in this module they agree with Python.
-/

namespace StyledStr

/-- Python exceptions that the embedded code can raise.  `nameError` carries
the undefined identifier; `valueError` carries the exact message built by the
source; the message texts of `TypeError` and `IndexError` are not modelled. -/
inductive PyErr where
  | typeError
  | valueError (msg : String)
  | nameError (n : String)
  | indexError
  deriving DecidableEq, Repr

/-- An element of the `_codes` list.  The constructor appends joined code
strings (from `_color_code`), raw ints (style indices from
`STYLES.index(part)`), and — when `_color_code` falls through every branch —
Python `None`. -/
inductive Code where
  | strc (s : String)
  | intc (n : Int)
  | noneC
  deriving DecidableEq, Repr

/-- `str(arg)` for a `_codes` element, as used by `_join`. -/
def codeStr : Code → String
  | .strc s => s
  | .intc n => toString n
  | .noneC => "None"

/-- `';'.join(str(arg) for arg in args)` (`Styled._join`). -/
def pyJoin : List String → String
  | [] => ""
  | [a] => a
  | a :: rest => a ++ ";" ++ pyJoin rest

/-- `str.lower` (ASCII case mapping, which covers all inputs appearing in
this module). -/
def pyLower (s : String) : String := ⟨s.data.map Char.toLower⟩

/-- `str.upper` (ASCII case mapping). -/
def pyUpperStr (s : String) : String := ⟨s.data.map Char.toUpper⟩

/-- `str.strip()` with no argument: remove leading and trailing
whitespace. -/
def pyStrip (s : String) : String :=
  ⟨((s.data.dropWhile Char.isWhitespace).reverse.dropWhile
      Char.isWhitespace).reverse⟩

/-- A Python `str` value: a plain string or a `Styled` instance.
`Styled` subclasses `str`, so both satisfy `isinstance(x, str)`.
A `styled` node records the `data` attribute (set by `__init__`; a `Styled`
argument is stored as-is because it passes the `isinstance(data, str)` check),
the contents of `_codes`, and the identity `cid` of the list object bound to
`_codes`. -/
inductive PyStr where
  | plain (s : String)
  | styled (data : PyStr) (codes : List Code) (cid : Nat)
  deriving DecidableEq, Repr

/-- Alignment in a format specification: `<`, `>`, `^`. -/
inductive Align where
  | left
  | right
  | center
  deriving DecidableEq, Repr

/-- A parsed `str.__format__` specification (string presentation type):
fill character, alignment, minimum width, optional precision. -/
structure FormatSpec where
  fill : Char
  align : Align
  width : Nat
  precision : Option Nat
  deriving DecidableEq, Repr

/-- The empty format specification `''` (default fill `' '`, default
alignment `<` for strings, width 0, no precision). -/
def emptySpec : FormatSpec := ⟨' ', .left, 0, none⟩

/-- `str.__format__` on a plain string: truncate to `precision`, then pad
with `fill` to `width` according to `align` (centering puts the extra fill
character on the right). -/
def strFormat (s : String) (fs : FormatSpec) : String :=
  let t := match fs.precision with
    | some p => ⟨s.data.take p⟩
    | none => s
  if t.length < fs.width then
    let pad := fs.width - t.length
    match fs.align with
    | .left => t ++ ⟨List.replicate pad fs.fill⟩
    | .right => (⟨List.replicate pad fs.fill⟩ : String) ++ t
    | .center =>
        (⟨List.replicate (pad / 2) fs.fill⟩ : String) ++ t ++
          ⟨List.replicate (pad - pad / 2) fs.fill⟩
  else t

/-- `TEMPLATE.format(*args)` where `TEMPLATE` is the two-slot template
`ESC "[" slot0 "m" slot1 ESC "[0m"`:  `str.format` fills the two slots with
the first two positional arguments, ignores surplus arguments, and raises
`IndexError` when fewer than two are given. -/
def templateSlots : List String → Except PyErr String
  | a :: b :: _ => .ok ("\x1b[" ++ a ++ "m" ++ b ++ "\x1b[0m")
  | _ => .error .indexError

/-- `format(x, fs)`: a plain string formats by `str.__format__`; a `Styled`
formats by `Styled.__format__`, which evaluates
`TEMPLATE.format(*self._codes, self.data.__format__(fs))` — note the source
spreads `_codes` as separate arguments instead of joining them. -/
def pyFormat : PyStr → FormatSpec → Except PyErr String
  | .plain s, fs => .ok (strFormat s fs)
  | .styled d codes _, fs => do
      let t ← pyFormat d fs
      templateSlots (codes.map codeStr ++ [t])

/-- The escape-wrapped text produced by `Styled.__str__`:
`TEMPLATE.format(self._join(*self._codes), t)` with both slots supplied. -/
def wrap (codes : List Code) (t : String) : String :=
  "\x1b[" ++ pyJoin (codes.map codeStr) ++ "m" ++ t ++ "\x1b[0m"

/-- `str(x)`: the identity on a plain string; `Styled.__str__` on a `Styled`.
`Styled.__str__` inserts `self.data` through a format slot, i.e. via
`format(self.data, '')`. -/
def pyToStr : PyStr → Except PyErr String
  | .plain s => .ok s
  | .styled d codes _ => (pyFormat d emptySpec).map (wrap codes)

/-- Formatting a plain string with the empty specification returns it
unchanged. -/
theorem strFormat_empty (s : String) : strFormat s emptySpec = s := by
  simp [strFormat, emptySpec]

/-- The operand of a binary operation on a `Styled`: either a `str` value
(plain or `Styled`) or a value that is not an instance of `str` at all,
described only informally. -/
inductive Operand where
  | val (x : PyStr)
  | nonStr (descr : String)

/-- The Python expression `x == y` for two `str` values.  `Styled.__eq__`
compares `self.data` with the other operand's content; when the left operand
is a plain `str` and the right a `Styled`, Python consults the subclass's
`__eq__` first. -/
def pyEq : PyStr → PyStr → Bool
  | .plain s, .plain t => s == t
  | .plain s, .styled d _ _ => pyEq d (.plain s)
  | .styled d _ _, .plain t => pyEq d (.plain t)
  | .styled d _ _, .styled e _ _ => pyEq d e
termination_by x y => sizeOf x + sizeOf y
decreasing_by all_goals (simp_wf; omega)

mutual

/-- The Python expressions `x < y` and `x > y` for two `str` values.  When
the left operand is a plain `str` and the right a `Styled`, Python tries the
subclass's reflected method first (`__gt__` for `<`, `__lt__` for `>`), whose
plain-`str` branch compares `self.data` with the operand.  `Styled.__lt__`'s
`Styled` branch compares `self.data < other.data`; `Styled.__gt__`'s `Styled`
branch evaluates `self,data > other.data`, a comma typo that reads the
undefined name `data` and raises `NameError`. -/
def pyLt : PyStr → PyStr → Except PyErr Bool
  | .plain s, .plain t => .ok (decide (s < t))
  | .plain s, .styled d _ _ => pyGt d (.plain s)
  | .styled d _ _, .plain t => pyLt d (.plain t)
  | .styled d _ _, .styled e _ _ => pyLt d e
termination_by x y => sizeOf x + sizeOf y
decreasing_by all_goals (simp_wf; omega)

/-- See `pyLt`. -/
def pyGt : PyStr → PyStr → Except PyErr Bool
  | .plain s, .plain t => .ok (decide (t < s))
  | .plain s, .styled d _ _ => pyLt d (.plain s)
  | .styled d _ _, .plain t => pyGt d (.plain t)
  | .styled _ _ _, .styled _ _ _ => .error (.nameError "data")
termination_by x y => sizeOf x + sizeOf y
decreasing_by all_goals (simp_wf; omega)

end

mutual

/-- The Python expressions `x <= y` and `x >= y` for two `str` values.
`Styled.__le__` and `Styled.__ge__` both contain the `self,data` comma typo
in their `Styled` branch, so comparing two `Styled` values raises
`NameError`; their plain-`str` branches compare `self.data` with the
operand.  Python's `<=` on plain strings is the negation of the reversed
strict order. -/
def pyLe : PyStr → PyStr → Except PyErr Bool
  | .plain s, .plain t => .ok (!decide (t < s))
  | .plain s, .styled d _ _ => pyGe d (.plain s)
  | .styled d _ _, .plain t => pyLe d (.plain t)
  | .styled _ _ _, .styled _ _ _ => .error (.nameError "data")
termination_by x y => sizeOf x + sizeOf y
decreasing_by all_goals (simp_wf; omega)

/-- See `pyLe`. -/
def pyGe : PyStr → PyStr → Except PyErr Bool
  | .plain s, .plain t => .ok (!decide (s < t))
  | .plain s, .styled d _ _ => pyLe d (.plain s)
  | .styled d _ _, .plain t => pyGe d (.plain t)
  | .styled _ _ _, .styled _ _ _ => .error (.nameError "data")
termination_by x y => sizeOf x + sizeOf y
decreasing_by all_goals (simp_wf; omega)

end

/-- `Styled.__eq__` at the operation level: a non-`str` operand compares
unequal (`False`); a `str` operand is compared as by `pyEq`. -/
def stEq (x : PyStr) (o : Operand) : Bool :=
  match o with
  | .nonStr _ => false
  | .val y => pyEq x y

/-- `Styled.__lt__` at the operation level: a non-`str` operand raises
`TypeError`. -/
def stLt (x : PyStr) (o : Operand) : Except PyErr Bool :=
  match o with
  | .nonStr _ => .error .typeError
  | .val y => pyLt x y

/-- `Styled.__le__` at the operation level. -/
def stLe (x : PyStr) (o : Operand) : Except PyErr Bool :=
  match o with
  | .nonStr _ => .error .typeError
  | .val y => pyLe x y

/-- `Styled.__gt__` at the operation level. -/
def stGt (x : PyStr) (o : Operand) : Except PyErr Bool :=
  match o with
  | .nonStr _ => .error .typeError
  | .val y => pyGt x y

/-- `Styled.__ge__` at the operation level. -/
def stGe (x : PyStr) (o : Operand) : Except PyErr Bool :=
  match o with
  | .nonStr _ => .error .typeError
  | .val y => pyGe x y

/-- `hash(x)`: `Styled.__hash__` returns `hash(self.data)`, recursing through
a `Styled` stored in `data`.  `String.hash` stands in for the platform's
deterministic string hash; only equalities between hashes are asserted. -/
def stHash : PyStr → UInt64
  | .plain s => s.hash
  | .styled d _ _ => stHash d

/-- The fixed 8-color vocabulary `Styled.COLORS`. -/
def COLORS : List String :=
  ["black", "red", "green", "yellow", "blue", "magenta", "cyan", "white"]

/-- The fixed 10-style vocabulary `Styled.STYLES`. -/
def STYLES : List String :=
  ["none", "bold", "faint", "italic", "underlined", "blink", "blink2",
   "negative", "concealed", "crossed"]

/-- A foreground/background color specification as passed to the
constructor: a string, an int, a tuple/list of ints (RGB components), or any
other Python value (described only informally). -/
inductive ColorSpec where
  | str (s : String)
  | int (n : Int)
  | seq (xs : List Int)
  | other (descr : String)
  deriving DecidableEq, Repr

/-- Python truthiness of a color specification (the constructor guards each
color argument with `if fg:` / `if bg:`). -/
def colorTruthy : ColorSpec → Bool
  | .str s => s ≠ ""
  | .int n => n ≠ 0
  | .seq xs => ¬xs.isEmpty
  | .other _ => true

/-- `Styled._color_code(spec, base)`.  A string spec is stripped and
lower-cased, then matched against `'default'` and `COLORS`; an int in
`[0, 255]` yields the joined palette code; a tuple/list evaluates
`_join(*spec)` with the *module-level* name `_join`, which is undefined, so
it raises `NameError`; every other spec falls off the end of the function and
returns Python `None`. -/
def colorCode : ColorSpec → Int → Except PyErr (Option String)
  | .str s, base =>
      let t := pyLower (pyStrip s)
      if t = "default" then .ok (some (toString (base + 9)))
      else match COLORS.indexOf? t with
        | some i => .ok (some (toString (base + (i : Int))))
        | none => .ok none
  | .int n, base =>
      if 0 ≤ n ∧ n ≤ 255 then
        .ok (some (pyJoin [toString (base + 8), "5", toString n]))
      else .ok none
  | .seq _, _ => .error (.nameError "_join")
  | .other _, _ => .ok none

/-- The `style` argument: `None`, a single name, or a list of names. -/
inductive StyleArg where
  | noneA
  | strA (s : String)
  | listA (xs : List String)
  deriving DecidableEq, Repr

/-- Python truthiness of the `style` argument (`if style:`). -/
def styleTruthy : StyleArg → Bool
  | .noneA => false
  | .strA s => s ≠ ""
  | .listA xs => ¬xs.isEmpty

/-- A single style name is treated as a one-element list. -/
def styleList : StyleArg → List String
  | .noneA => []
  | .strA s => [s]
  | .listA xs => xs

/-- The loop over the style names: each name in `STYLES` appends its 0-based
index (an int) to `_codes`; an unknown name `part` raises a `ValueError`
whose message is `Invalid style '` ++ part ++ `'.` — modelled verbatim. -/
def styleCodes : List String → Except PyErr (List Code)
  | [] => .ok []
  | p :: ps =>
      match STYLES.indexOf? p with
      | some i => (styleCodes ps).map (fun cs => .intc (Int.ofNat i) :: cs)
      | none => .error (.valueError ("Invalid style '" ++ p ++ "'."))

/-- The keyword arguments of the constructor (`fg`, `brightfg`, `bg`,
`brightbg`, `style`), defaults `None`/`False`. -/
structure StyleSpec where
  fg : Option ColorSpec
  brightfg : Bool
  bg : Option ColorSpec
  brightbg : Bool
  style : StyleArg
  deriving DecidableEq, Repr

/-- What `_codes.append(self._color_code(...))` stores: the returned string,
or Python `None` when `_color_code` fell through. -/
def optToCode : Option String → Code
  | some s => .strc s
  | none => .noneC

/-- The codes contributed by one color argument: skipped when the argument
is falsy, otherwise `_color_code(spec, base + (60 if bright else 0))` — the
bright increment is added to the base unconditionally on the spec's shape. -/
def sideCodes (spec : Option ColorSpec) (bright : Bool) (base : Int) :
    Except PyErr (List Code) :=
  match spec with
  | some c =>
      if colorTruthy c then
        (colorCode c (base + if bright then 60 else 0)).map
          (fun r => [optToCode r])
      else .ok []
  | none => .ok []

/-- `__init__`'s code accumulation: foreground codes, then background codes,
then style codes, in that order (`BASE_FG = 30`, `BASE_BG = 40`,
`BASE_BRIGHT_INC = 60`). -/
def buildCodes (sp : StyleSpec) : Except PyErr (List Code) := do
  let f ← sideCodes sp.fg sp.brightfg 30
  let b ← sideCodes sp.bg sp.brightbg 40
  let st ← if styleTruthy sp.style then styleCodes (styleList sp.style)
    else pure []
  pure (f ++ b ++ st)

/-- Calling the class: `__new__` then `__init__`.  The `data` argument is a
`str` value (possibly a `Styled`); since `Styled` subclasses `str`,
`isinstance(data, str)` is true for both and `__init__` stores `data` as-is —
the `elif isinstance(data, Styled)` branch that would copy `data.data` is
unreachable.  `_codes` starts as a fresh empty list (identity `cid`) and is
filled per `buildCodes`. -/
def construct (data : PyStr) (sp : StyleSpec) (cid : Nat) :
    Except PyErr PyStr :=
  (buildCodes sp).map (fun cs => .styled data cs cid)

/-- `Styled.__add__`: a non-`str` operand raises `TypeError`; otherwise the
result is the plain string `str(self) + str(other)`. -/
def stAdd (x : PyStr) (o : Operand) : Except PyErr String :=
  match o with
  | .nonStr _ => .error .typeError
  | .val y => do
      let a ← pyToStr x
      let b ← pyToStr y
      pure (a ++ b)

/-- `Styled.__radd__`: a non-`str` operand raises `TypeError`; otherwise the
result is the plain string `str(other) + str(self)`. -/
def stRadd (x : PyStr) (o : Operand) : Except PyErr String :=
  match o with
  | .nonStr _ => .error .typeError
  | .val y => do
      let b ← pyToStr y
      let a ← pyToStr x
      pure (b ++ a)

/-- Python `s * n` on a plain string: `n` copies for `n > 0`, else `''`. -/
def strRepeat (s : String) (n : Int) : String :=
  String.join (List.replicate n.toNat s)

/-- `x * n`: on a plain string, repetition; `Styled.__mul__` builds
`self.__class__(self.data * n)` (allocating and discarding a fresh `_codes`
list in `__init__`) and then rebinds `new_styled._codes = self._codes` — the
*same* list object, so the result keeps the original's list identity `cid`.
`nid` is the allocator's next fresh identity, consumed by inner
constructions. -/
def pyMul : PyStr → Int → Nat → PyStr
  | .plain s, n, _ => .plain (strRepeat s n)
  | .styled d c cid, n, nid => .styled (pyMul d n (nid + 1)) c cid

/-- `x.upper()`: `Styled.upper` builds `self.__class__(self.data.upper())`
and rebinds `new_styled._codes = self._codes` — again the same list object. -/
def pyUpper : PyStr → Nat → PyStr
  | .plain s, _ => .plain (pyUpperStr s)
  | .styled d c cid, nid => .styled (pyUpper d (nid + 1)) c cid

/-- Python `s[i]` on a plain string with an int key: negative indices count
from the end; out of range raises `IndexError`. -/
def strIndex (s : String) (i : Int) : Except PyErr String :=
  let j := if i < 0 then i + s.length else i
  if 0 ≤ j ∧ j < s.length then
    .ok (String.singleton (s.data.getD j.toNat ' '))
  else .error .indexError

/-- `x[i]` with an int key: `Styled.__getitem__` builds
`self.__class__(self.data[key])` and then rebinds
`new_styled._codes = self._codes[:]` — a slice, i.e. a *fresh* list object
(identity `nid`) whose contents equal the original's. -/
def pyGetItem : PyStr → Int → Nat → Except PyErr PyStr
  | .plain s, i, _ => (strIndex s i).map .plain
  | .styled d c _, i, nid =>
      (pyGetItem d i (nid + 2)).map (fun x => .styled x c nid)

/-- `Styled.copy(new_data)` on a `Styled` with data `d`, codes `c`, list
identity `cid`: the new value holds `new_data` if that is truthy, else the
original data, and `self._codes[:]` — a fresh list object (identity `nid`)
with equal contents.  Per the annotation, `new_data` is an optional plain
string. -/
def stCopy (d : PyStr) (c : List Code) (nd : Option String) (nid : Nat) :
    PyStr :=
  .styled
    (match nd with
      | some s => if s = "" then d else .plain s
      | none => d)
    c nid

/-- The identity of the list object bound to `_codes` (none for a plain
string, which has no `_codes`). -/
def codesId : PyStr → Option Nat
  | .plain _ => none
  | .styled _ _ i => some i

/-- The contents of `_codes`. -/
def codesVal : PyStr → Option (List Code)
  | .plain _ => none
  | .styled _ c _ => some c

/-- `Styled.__getnewargs__`: the persisted pair `(self.data, self._codes)`. -/
def getnewargs : PyStr → Option (PyStr × List Code)
  | .plain _ => none
  | .styled d c _ => some (d, c)

/-- Reconstruction from a persisted `(data, codes)` pair, as pickle performs
it for this class: `cls.__new__(cls, data, codes)` followed by restoring the
instance dictionary holding `data` and `_codes`; the unpickled `_codes` list
is a fresh object (identity `nid`) with the persisted contents. -/
def reconstruct : PyStr × List Code → Nat → PyStr
  | (d, c), nid => .styled d c nid

/-- `pyEq` is reflexive. -/
theorem pyEq_refl (x : PyStr) : pyEq x x = true := by
  induction x with
  | plain s => simp [pyEq]
  | styled d codes cid ih => simpa [pyEq] using ih

/-- Claim C1: stringifying a `Styled` with content `d` and code list `codes`
yields the single ESC character, `[`, the codes converted with `str` and
joined by `;` (compound code strings inserted verbatim), `m`, the content,
then `ESC [0m`; with an empty code list the output is still
`ESC [m` ++ content ++ `ESC [0m`. -/
theorem render_escape_format (d : String) (codes : List Code) (cid : Nat) :
    pyToStr (.styled (.plain d) codes cid) =
      .ok ("\x1b[" ++ pyJoin (codes.map codeStr) ++ "m" ++ d ++ "\x1b[0m") ∧
    pyToStr (.styled (.plain d) [] cid) = .ok ("\x1b[m" ++ d ++ "\x1b[0m") := by
  constructor
  · simp [pyToStr, pyFormat, strFormat_empty, wrap, Except.map]
  · simp [pyToStr, pyFormat, strFormat_empty, wrap, pyJoin, Except.map]

/-- A successful construction returns a `Styled` whose `data` is the given
argument and whose `_codes` list has the fresh identity. -/
theorem construct_ok_shape {data : PyStr} {sp : StyleSpec} {cid : Nat}
    {v : PyStr} (h : construct data sp cid = .ok v) :
    ∃ cs, v = .styled data cs cid := by
  unfold construct at h
  cases hb : buildCodes sp with
  | ok cs =>
      rw [hb] at h
      exact ⟨cs, by simpa [Except.map] using h.symm⟩
  | error e => rw [hb] at h; simp [Except.map] at h

/-- Claim C2: for one text and any two style specifications under which
construction succeeds, the two `Styled` values compare equal and hash
equally — equality and hash read only the content — and a `Styled` is never
equal to a non-`str` value. -/
theorem eq_and_hash_ignore_styles (s : String) (A B : StyleSpec) (i j : Nat)
    (va vb : PyStr) (ha : construct (.plain s) A i = .ok va)
    (hb : construct (.plain s) B j = .ok vb) :
    stEq va (.val vb) = true ∧ stHash va = stHash vb ∧
      ∀ descr, stEq va (.nonStr descr) = false := by
  obtain ⟨cs, rfl⟩ := construct_ok_shape ha
  obtain ⟨ds, rfl⟩ := construct_ok_shape hb
  refine ⟨?_, rfl, fun descr => rfl⟩
  simp [stEq, pyEq]

/-- Witness for `eq_and_hash_ignore_styles`: content `"hi"`, one value
foreground-red, the other background-black. -/
theorem eq_and_hash_ignore_styles_witness :
    stEq (.styled (.plain "hi") [.strc "31"] 0)
        (.val (.styled (.plain "hi") [.strc "40"] 1)) = true ∧
      stHash (.styled (.plain "hi") [.strc "31"] 0) =
        stHash (.styled (.plain "hi") [.strc "40"] 1) ∧
      ∀ descr,
        stEq (.styled (.plain "hi") [.strc "31"] 0) (.nonStr descr) = false :=
  eq_and_hash_ignore_styles "hi"
    ⟨some (.str "red"), false, none, false, .noneA⟩
    ⟨none, false, some (.str "black"), false, .noneA⟩ 0 1
    (.styled (.plain "hi") [.strc "31"] 0)
    (.styled (.plain "hi") [.strc "40"] 1) (by rfl) (by rfl)

/-- Claim C3 (code bug): `<` between two `Styled` values is lexicographic on
content and `<` against a non-`str` raises `TypeError` as claimed, but `<=`,
`>` and `>=` between two `Styled` values raise `NameError` — their `Styled`
branches read `self,data` (a comma typo for `self.data`), loading the
undefined name `data` — instead of returning the lexicographic comparison;
only their plain-`str` branches work. -/
theorem ordering_comma_typo_name_error :
    stLe (.styled (.plain "a") [] 0) (.val (.styled (.plain "b") [] 1)) =
        .error (.nameError "data") ∧
      stGt (.styled (.plain "a") [] 0) (.val (.styled (.plain "b") [] 1)) =
        .error (.nameError "data") ∧
      stGe (.styled (.plain "a") [] 0) (.val (.styled (.plain "b") [] 1)) =
        .error (.nameError "data") ∧
      stLt (.styled (.plain "a") [] 0) (.val (.styled (.plain "b") [] 1)) =
        .ok true ∧
      stLe (.styled (.plain "a") [] 0) (.val (.plain "b")) = .ok true ∧
      stLt (.styled (.plain "a") [] 0) (.nonStr "the int 3") =
        .error .typeError := by
  refine ⟨?_, ?_, ?_, ?_, ?_, rfl⟩ <;>
    simp [stLe, stGt, stGe, stLt, pyLe, pyGt, pyGe, pyLt] <;> decide

/-- Claim C4 (code bug): an out-of-range color spec such as `fg=300` does
NOT raise — `_color_code` falls through every branch, `None` is appended to
`_codes`, and rendering emits the garbage parameter `None`; a 3-component
RGB spec, which the claim says is accepted, raises `NameError` from the
undefined module-level `_join`.  The style half of the claim holds: an
unknown style name raises `ValueError`, and omitting every style argument
yields an empty code list without error. -/
theorem invalid_color_spec_not_rejected :
    construct (.plain "hi") ⟨some (.int 300), false, none, false, .noneA⟩ 0 =
        .ok (.styled (.plain "hi") [.noneC] 0) ∧
      pyToStr (.styled (.plain "hi") [.noneC] 0) =
        .ok "\x1b[Nonemhi\x1b[0m" ∧
      construct (.plain "hi")
          ⟨some (.seq [1, 2, 3]), false, none, false, .noneA⟩ 0 =
        .error (.nameError "_join") ∧
      construct (.plain "hi") ⟨none, false, none, false, .strA "glow"⟩ 0 =
        .error (.valueError "Invalid style 'glow'.") ∧
      construct (.plain "hi") ⟨none, false, none, false, .noneA⟩ 0 =
        .ok (.styled (.plain "hi") [] 0) :=
  ⟨rfl, rfl, rfl, rfl, rfl⟩

/-- Claim C5 (code bug): `__format__` spreads `self._codes` as separate
template arguments instead of joining them with `;`: with zero codes the
two-slot template raises `IndexError`; with two codes the second code lands
in the content slot and the formatted content is ignored; only the one-code
case wraps the formatted content as the claim states. -/
theorem format_spreads_codes_unjoined :
    pyFormat (.styled (.plain "hi") [] 0) emptySpec = .error .indexError ∧
      pyFormat (.styled (.plain "hi") [.strc "31", .strc "44"] 0)
          ⟨' ', .right, 5, none⟩ = .ok "\x1b[31m44\x1b[0m" ∧
      pyFormat (.styled (.plain "hi") [.strc "31"] 0)
          ⟨' ', .right, 5, none⟩ = .ok "\x1b[31m   hi\x1b[0m" :=
  ⟨rfl, rfl, rfl⟩

/-- Claim C6 (counterexample): the bright flag changes the emitted code even
for the non-named spec `'default'`: with `fg='default', brightfg=True` the
constructor emits code `99`, not the `39` emitted without the flag, so a
bright flag with a non-named specification does change the emitted code. -/
theorem bright_default_changes_code :
    construct (.plain "hi")
        ⟨some (.str "default"), true, none, false, .noneA⟩ 0 =
      .ok (.styled (.plain "hi") [.strc "99"] 0) ∧
    construct (.plain "hi")
        ⟨some (.str "default"), false, none, false, .noneA⟩ 0 =
      .ok (.styled (.plain "hi") [.strc "39"] 0) ∧
    Code.strc "99" ≠ Code.strc "39" :=
  ⟨rfl, rfl, by decide⟩

/-- Construction with only a truthy foreground spec appends exactly the code
returned by `_color_code(fg, 30 + (60 if brightfg else 0))`. -/
theorem construct_single_fg (s : String) (k : Nat) (c : ColorSpec) (b : Bool)
    (r : Option String) (ht : colorTruthy c = true)
    (hc : colorCode c (30 + if b then 60 else 0) = .ok r) :
    construct (.plain s) ⟨some c, b, none, false, .noneA⟩ k =
      .ok (.styled (.plain s) [optToCode r] k) := by
  simp [construct, buildCodes, sideCodes, ht, hc, Except.map, styleTruthy]
  rfl

/-- Construction with only a truthy background spec appends exactly the code
returned by `_color_code(bg, 40 + (60 if brightbg else 0))`. -/
theorem construct_single_bg (s : String) (k : Nat) (c : ColorSpec) (b : Bool)
    (r : Option String) (ht : colorTruthy c = true)
    (hc : colorCode c (40 + if b then 60 else 0) = .ok r) :
    construct (.plain s) ⟨none, false, some c, b, .noneA⟩ k =
      .ok (.styled (.plain s) [optToCode r] k) := by
  simp [construct, buildCodes, sideCodes, ht, hc, Except.map, styleTruthy]
  rfl

/-- Claim C6 (amended): when the bright flag is set, 60 is added to the base
for *every* spec shape, not only named colors: named colors emit 90–97
(foreground) / 100–107 (background), `'default'` emits 99 / 109, and a
nonzero palette integer `n` in range emits `98;5;n` / `108;5;n`. -/
theorem bright_adds_sixty_always (s : String) (k : Nat)
    (i : Fin COLORS.length) (n : Int) :
    construct (.plain s)
        ⟨some (.str (COLORS.get i)), true, none, false, .noneA⟩ k =
      .ok (.styled (.plain s) [.strc (toString (90 + (i : Nat)))] k) ∧
    construct (.plain s)
        ⟨none, false, some (.str (COLORS.get i)), true, .noneA⟩ k =
      .ok (.styled (.plain s) [.strc (toString (100 + (i : Nat)))] k) ∧
    construct (.plain s)
        ⟨some (.str "default"), true, none, false, .noneA⟩ k =
      .ok (.styled (.plain s) [.strc "99"] k) ∧
    construct (.plain s)
        ⟨none, false, some (.str "default"), true, .noneA⟩ k =
      .ok (.styled (.plain s) [.strc "109"] k) ∧
    (1 ≤ n → n ≤ 255 →
      construct (.plain s) ⟨some (.int n), true, none, false, .noneA⟩ k =
          .ok (.styled (.plain s) [.strc ("98;5;" ++ toString n)] k) ∧
        construct (.plain s) ⟨none, false, some (.int n), true, .noneA⟩ k =
          .ok (.styled (.plain s) [.strc ("108;5;" ++ toString n)] k)) := by
  refine ⟨?_, ?_, rfl, rfl, ?_⟩
  · fin_cases i <;> rfl
  · fin_cases i <;> rfl
  · intro h1 h2
    have hne : n ≠ 0 := by omega
    have ht : colorTruthy (.int n) = true := by
      simp only [colorTruthy]
      exact decide_eq_true hne
    have hr : (0 : Int) ≤ n ∧ n ≤ 255 := ⟨by omega, h2⟩
    constructor
    · have hc : colorCode (.int n) (30 + if true then 60 else 0) =
          .ok (some ("98;5;" ++ toString n)) := by
        simp only [colorCode, if_pos hr]
        rfl
      exact construct_single_fg s k (.int n) true _ ht hc
    · have hc : colorCode (.int n) (40 + if true then 60 else 0) =
          .ok (some ("108;5;" ++ toString n)) := by
        simp only [colorCode, if_pos hr]
        rfl
      exact construct_single_bg s k (.int n) true _ ht hc

/-- Witness for `bright_adds_sixty_always`: color index 1 (`red`) and
palette index 196. -/
theorem bright_adds_sixty_always_witness :
    construct (.plain "x")
        ⟨some (.str "red"), true, none, false, .noneA⟩ 0 =
      .ok (.styled (.plain "x") [.strc "91"] 0) ∧
    (1 ≤ (196 : Int) ∧ (196 : Int) ≤ 255) ∧
    construct (.plain "x") ⟨some (.int 196), true, none, false, .noneA⟩ 0 =
      .ok (.styled (.plain "x") [.strc "98;5;196"] 0) := by
  have h := bright_adds_sixty_always "x" 0 ⟨1, by decide⟩ 196
  exact ⟨h.1, ⟨by decide, by decide⟩, (h.2.2.2.2 (by decide) (by decide)).1⟩

/-- Claim C7: `__add__` and `__radd__` with a `str` operand return the plain
string concatenating the two operands' renderings, in operand order; with a
non-`str` operand both raise `TypeError`. -/
theorem concat_yields_plain_rendered_text (x y : PyStr) (ra rb : String)
    (descr : String) (hx : pyToStr x = .ok ra) (hy : pyToStr y = .ok rb) :
    stAdd x (.val y) = .ok (ra ++ rb) ∧
      stRadd x (.val y) = .ok (rb ++ ra) ∧
      stAdd x (.nonStr descr) = .error .typeError ∧
      stRadd x (.nonStr descr) = .error .typeError := by
  refine ⟨?_, ?_, rfl, rfl⟩
  · simp only [stAdd, hx, hy]
    rfl
  · simp only [stRadd, hx, hy]
    rfl

/-- Witness for `concat_yields_plain_rendered_text`: a red `"a"` and a
background-styled `"b"`. -/
theorem concat_yields_plain_rendered_text_witness :
    stAdd (.styled (.plain "a") [.strc "31"] 0)
        (.val (.styled (.plain "b") [.strc "44"] 1)) =
      .ok ("\x1b[31ma\x1b[0m" ++ "\x1b[44mb\x1b[0m") ∧
    stRadd (.styled (.plain "a") [.strc "31"] 0)
        (.val (.styled (.plain "b") [.strc "44"] 1)) =
      .ok ("\x1b[44mb\x1b[0m" ++ "\x1b[31ma\x1b[0m") ∧
    stAdd (.styled (.plain "a") [.strc "31"] 0) (.nonStr "the int 3") =
      .error .typeError ∧
    stRadd (.styled (.plain "a") [.strc "31"] 0) (.nonStr "the int 3") =
      .error .typeError :=
  concat_yields_plain_rendered_text (.styled (.plain "a") [.strc "31"] 0)
    (.styled (.plain "b") [.strc "44"] 1) "\x1b[31ma\x1b[0m" "\x1b[44mb\x1b[0m"
    "the int 3" (by rfl) (by rfl)

/-- Claim C8 (counterexample): `__mul__` does NOT give the result its own
copy of the code list: it rebinds the original `_codes` object, so the
derived value's list identity equals the original's. -/
theorem mul_aliases_codes :
    codesId (pyMul (.styled (.plain "ab") [.intc 1] 0) 2 5) = some 0 ∧
      codesId (.styled (.plain "ab") [.intc 1] 0) = some 0 ∧
      pyMul (.styled (.plain "ab") [.intc 1] 0) 2 5 =
        .styled (.plain "abab") [.intc 1] 0 :=
  ⟨rfl, rfl, rfl⟩

/-- Claim C8 (amended): only indexing and `copy` give the derived value a
defensive copy of the code list (a fresh list identity with equal contents);
repetition and the case conversions rebind the original list object, so
their results alias the original's code list. -/
theorem derived_codes_aliasing (d : PyStr) (c : List Code) (cid : Nat)
    (n iKey : Int) (nd : Option String) (nid : Nat) (r : PyStr)
    (hfresh : cid < nid) :
    codesId (pyMul (.styled d c cid) n nid) = some cid ∧
      codesId (pyUpper (.styled d c cid) nid) = some cid ∧
      (codesId (stCopy d c nd nid) = some nid ∧
        codesVal (stCopy d c nd nid) = some c ∧ nid ≠ cid) ∧
      (pyGetItem (.styled d c cid) iKey nid = .ok r →
        codesId r = some nid ∧ codesVal r = some c ∧ nid ≠ cid) := by
  refine ⟨rfl, rfl, ⟨rfl, rfl, by omega⟩, ?_⟩
  intro h
  simp only [pyGetItem] at h
  cases hg : pyGetItem d iKey (nid + 2) with
  | ok x =>
      rw [hg] at h
      simp only [Except.map] at h
      cases h
      exact ⟨rfl, rfl, by omega⟩
  | error e => rw [hg] at h; simp [Except.map] at h

/-- Witness for `derived_codes_aliasing`: a two-character value, repetition
count 2, index 0, fresh identity 1. -/
theorem derived_codes_aliasing_witness :
    codesId (pyMul (.styled (.plain "ab") [.intc 1] 0) 2 1) = some 0 ∧
      codesId (pyUpper (.styled (.plain "ab") [.intc 1] 0) 1) = some 0 ∧
      (codesId (stCopy (.plain "ab") [.intc 1] none 1) = some 1 ∧
        codesVal (stCopy (.plain "ab") [.intc 1] none 1) = some [.intc 1] ∧
        (1 : Nat) ≠ 0) ∧
      (pyGetItem (.styled (.plain "ab") [.intc 1] 0) 0 1 =
          .ok (.styled (.plain "a") [.intc 1] 1) →
        codesId (.styled (.plain "a") [.intc 1] 1) = some 1 ∧
          codesVal (.styled (.plain "a") [.intc 1] 1) = some [.intc 1] ∧
          (1 : Nat) ≠ 0) :=
  derived_codes_aliasing (.plain "ab") [.intc 1] 0 2 0 none 1
    (.styled (.plain "a") [.intc 1] 1) (by decide)

/-- Claim C9: a `Styled` persists as the `(data, codes)` pair of
`__getnewargs__`, and the value reconstructed from that pair renders
identically to the original and compares equal to it in content. -/
theorem persist_reconstruct_round_trip (d : PyStr) (c : List Code)
    (cid nid : Nat) :
    getnewargs (.styled d c cid) = some (d, c) ∧
      pyToStr (reconstruct (d, c) nid) = pyToStr (.styled d c cid) ∧
      stEq (reconstruct (d, c) nid) (.val (.styled d c cid)) = true := by
  refine ⟨rfl, rfl, ?_⟩
  simp only [reconstruct, stEq, pyEq]
  exact pyEq_refl d

/-- Claim C10 (code bug): constructing from an existing `Styled` stores the
inner `Styled` object itself as `data` — `isinstance(data, str)` is true for
a `Styled`, so the `elif` that would copy `data.data` is dead — and
rendering therefore nests the inner escape sequence instead of wrapping the
bare content (the codes half of the claim does hold: the outer value's codes
come only from this construction's arguments, here none). -/
theorem styled_data_not_unwrapped :
    construct (.plain "hi") ⟨some (.str "red"), false, none, false, .noneA⟩ 0 =
        .ok (.styled (.plain "hi") [.strc "31"] 0) ∧
      construct (.styled (.plain "hi") [.strc "31"] 0)
          ⟨none, false, none, false, .noneA⟩ 1 =
        .ok (.styled (.styled (.plain "hi") [.strc "31"] 0) [] 1) ∧
      pyToStr (.styled (.styled (.plain "hi") [.strc "31"] 0) [] 1) =
        .ok "\x1b[m\x1b[31mhi\x1b[0m\x1b[0m" ∧
      "\x1b[m\x1b[31mhi\x1b[0m\x1b[0m" ≠ "\x1b[mhi\x1b[0m" :=
  ⟨rfl, rfl, rfl, by decide⟩

end StyledStr
